import Mathlib

set_option maxRecDepth 8000

/-!
Shallow embedding of `scripts/generate_html.py` (the single source file of the
repository).  JSON-parsed Python values are modelled by `PyVal`; text values are
Lean `String`s.  Numbers do not occur in any behaviour the claims touch, so the
value universe is strings, lists, objects (association lists with unique keys,
as produced by `json.load`) and `None`.
-/

/-- A Python value as produced by `json.load`: a string, `None`, a list, or a
dict whose keys are strings.  (JSON numbers/booleans play no role in any claim
and are omitted from the universe.) -/
inductive PyVal where
  | str (s : String)
  | noneV
  | list (items : List PyVal)
  | dict (entries : List (String × PyVal))

/-- The Python exceptions the script can raise, as far as the embedding needs
to distinguish them. -/
inductive PyErr where
  | nameError (n : String)
  | attributeError
  | typeError
  | ioOrParseError
deriving DecidableEq

/-- `"".join(parts)`: concatenation of a list of strings (empty separator). -/
def pyJoin : List String → String
  | [] => ""
  | s :: rest => s ++ pyJoin rest

/-- `", ".join(parts)`, used only by the `str()` rendering of containers. -/
def joinComma : List String → String
  | [] => ""
  | [s] => s
  | s :: rest => s ++ ", " ++ joinComma rest

/-- A single-quote character, written by code point to keep the file free of
quote-literal noise. -/
def squote : String := String.singleton (Char.ofNat 39)

mutual

/-- Python `str()` (`reprMode = false`) / `repr()` (`reprMode = true`) of a
value, as used implicitly by f-strings and `Template.substitute`.  For strings
`str` is the identity and `repr` wraps in single quotes (Python's escaping of
special characters inside `repr` is not modelled; no claim evaluates `repr`).
Containers render as in CPython: `[el, ...]` and `{k: v, ...}` with
`repr`-rendered members. -/
def pyToStr (reprMode : Bool) : PyVal → String
  | .str s => if reprMode then squote ++ s ++ squote else s
  | .noneV => "None"
  | .list xs => "[" ++ joinComma (strMembers xs) ++ "]"
  | .dict es => "\x7b" ++ joinComma (strPairs es) ++ "\x7d"

/-- `repr` of each member of a list. -/
def strMembers : List PyVal → List String
  | [] => []
  | v :: vs => pyToStr true v :: strMembers vs

/-- `repr(key): repr(value)` for each entry of a dict. -/
def strPairs : List (String × PyVal) → List String
  | [] => []
  | (k, v) :: rest => (squote ++ k ++ squote ++ ": " ++ pyToStr true v) :: strPairs rest

end

/-- Python `str()` of a value. -/
def pyStr : PyVal → String := pyToStr false

example : pyStr (.str "abc") = "abc" := rfl
example : pyStr (.list [.str "a", .noneV]) = "[" ++ squote ++ "a" ++ squote ++ ", None]" := rfl

/-!
## `get_list` (source lines 3-7)

```python
def get_list(d, names):
    for n in names:
        if n in d:
            return d[n]
    return []
```
`d` is the top-level JSON object, so it is modelled as an association list.
-/

/-- `get_list(d, names)`: value of the first of `names` present in `d`,
else an empty list. -/
def get_list (d : List (String × PyVal)) : List String → PyVal
  | [] => .list []
  | n :: ns =>
    match d.lookup n with
    | some v => v
    | none => get_list d ns

/-!
## `slugify` (source lines 30-34)

```python
def slugify(name: str) -> str:
    s = name.strip().lower()
    s = re.sub(r'[^a-z0-9\- ]', '', s)
    s = s.replace(' ', '-')
    return s or 'client'
```
Characters are compared through their code points so that the character-class
reasoning stays in `Nat` arithmetic.  `.strip()` and `.lower()` are modelled on
their ASCII fragment; every non-ASCII character is removed by the `re.sub`
filter in either reading, so the modelled output agrees with CPython on all
inputs whose letters are ASCII.
-/

/-- ASCII fragment of the whitespace class stripped by `str.strip()`:
space, tab, newline, carriage return, vertical tab, form feed. -/
def pySpace (c : Char) : Bool :=
  c.toNat == 32 || c.toNat == 9 || c.toNat == 10 || c.toNat == 13 ||
  c.toNat == 11 || c.toNat == 12

/-- `str.strip()` on the character list: drop whitespace from both ends. -/
def pyStripChars (l : List Char) : List Char :=
  ((l.dropWhile pySpace).reverse.dropWhile pySpace).reverse

/-- ASCII fragment of `str.lower()`: map code points 65-90 to 97-122. -/
def pyLowerChar (c : Char) : Char :=
  if 65 ≤ c.toNat ∧ c.toNat ≤ 90 then Char.ofNat (c.toNat + 32) else c

/-- The character class `[a-z0-9\- ]` kept by the `re.sub` in `slugify`
(code points 97-122, 48-57, 45, 32). -/
def slugKeep (c : Char) : Bool :=
  (97 ≤ c.toNat && c.toNat ≤ 122) || (48 ≤ c.toNat && c.toNat ≤ 57) ||
  c.toNat == 45 || c.toNat == 32

/-- The value of `s` in `slugify` just before `return s or 'client'`:
strip, lower, drop characters outside `[a-z0-9\- ]`, then replace each
space with a hyphen. -/
def slugCore (name : String) : List Char :=
  (((pyStripChars name.data).map pyLowerChar).filter slugKeep).map
    (fun c => if c = ' ' then '-' else c)

/-- `slugify(name)` (source lines 30-34): the processed characters, or the
fallback `'client'` when they are empty (`s or 'client'`). -/
def slugify (name : String) : String :=
  if slugCore name = [] then "client" else String.mk (slugCore name)

example : slugify "  Jane OConnor!!  " = "jane-oconnor" := by decide
example : slugify "!!!" = "client" := by decide
example : slugify "A B" = "a-b" := by decide

/-!
## `safe_get` (source lines 37-44)

```python
def safe_get(d, *keys, default=''):
    cur = d
    for k in keys:
        if isinstance(cur, dict) and k in cur:
            cur = cur[k]
        else:
            return default
    return cur
```
-/

/-- `safe_get(d, *keys, default=...)`: walk the key path, returning the
default as soon as the current value is not a dict or lacks the key.
A total function: the embedding shows the walk can never raise. -/
def safe_get : PyVal → List String → PyVal → PyVal
  | cur, [], _ => cur
  | .dict es, k :: ks, dflt =>
    match es.lookup k with
    | some v => safe_get v ks dflt
    | none => dflt
  | _, _ :: _, dflt => dflt

/-- The successful dictionary walk along a key path, written independently of
`safe_get`: `some` value when every step goes through a dict that has the key,
`none` otherwise. -/
def pathVal : PyVal → List String → Option PyVal
  | v, [] => some v
  | .dict es, k :: ks =>
    match es.lookup k with
    | some v => pathVal v ks
    | none => none
  | _, _ :: _ => none

example : safe_get (.dict [("a", .dict [("b", .str "x")])]) ["a", "b"] (.str "") = .str "x" := rfl
example : safe_get (.dict [("a", .str "y")]) ["a", "b"] (.str "d") = .str "d" := rfl

/-!
## `render_table` (source lines 47-59)

```python
def render_table(rows, headers):
    parts = ["<table><thead><tr>"]
    for h in headers:
        parts.append(f"<th>{h}</th>")
    parts.append("</tr></thead><tbody>")
    for r in rows or []:
        parts.append("<tr>")
        for h in headers:
            parts.append(f"<td>{r.get(h, '')}</td>")
        parts.append("</tr>")
    parts.append("</tbody></table>")
    return "".join(parts)
```
-/

/-- Python truthiness on the modelled values (`bool(v)`): empty string, empty
list, empty dict and `None` are falsy. -/
def isTruthy : PyVal → Bool
  | .str s => s != ""
  | .noneV => false
  | .list xs => !xs.isEmpty
  | .dict es => !es.isEmpty

/-- The `<tr>` fragment one row contributes: one `<td>` per header holding
`str(r.get(h, ''))`. -/
def trCell (headers : List String) (es : List (String × PyVal)) : String :=
  "<tr>" ++ pyJoin (headers.map fun h => "<td>" ++ pyStr ((es.lookup h).getD (.str "")) ++ "</td>") ++ "</tr>"

/-- The body fragments of `render_table`, one per element of the iterated
sequence.  A row that is not a dict has no `.get`, so iteration raises
`AttributeError` at the first such row, exactly as the Python loop does. -/
def rowsHtml (headers : List String) : List PyVal → Except PyErr String
  | [] => .ok ""
  | r :: rest =>
    match r with
    | .dict es =>
      match rowsHtml headers rest with
      | .ok s => .ok (trCell headers es ++ s)
      | .error e => .error e
    | _ => .error .attributeError

/-- `"<table><thead><tr>"` plus one `<th>` per header plus
`"</tr></thead><tbody>"`. -/
def theadHtml (headers : List String) : String :=
  "<table><thead><tr>" ++ pyJoin (headers.map fun h => "<th>" ++ h ++ "</th>") ++ "</tr></thead><tbody>"

/-- `render_table(rows, headers)`.  `rows or []` replaces a falsy `rows`
(`None`, `[]`, `''`, `{}`) by the empty list; iterating a truthy non-list
value yields non-dict items (keys of a dict, characters of a string), which
fail at `r.get` with `AttributeError`; iterating `None` itself cannot occur
(falsy), and a truthy value that is no sequence at all raises `TypeError`. -/
def render_table (rows : PyVal) (headers : List String) : Except PyErr String :=
  match (if isTruthy rows then rows else .list []) with
  | .list items =>
    match rowsHtml headers items with
    | .ok body => .ok (theadHtml headers ++ body ++ "</tbody></table>")
    | .error e => .error e
  | .dict _ => .error .attributeError
  | .str _ => .error .attributeError
  | .noneV => .error .typeError

/-- The table fragment the specification describes: header cells in column
order, then one body row per input row in input order, each cell the row's
value for that column or the empty string when absent. -/
def tableHtml (rows : List (List (String × PyVal))) (headers : List String) : String :=
  theadHtml headers ++ pyJoin (rows.map (trCell headers)) ++ "</tbody></table>"

example :
    render_table (.list [.dict [("Area", .str "Chest"), ("Measurement", .str "42")]]) ["Area", "Measurement", "Notes"]
      = .ok "<table><thead><tr><th>Area</th><th>Measurement</th><th>Notes</th></tr></thead><tbody><tr><td>Chest</td><td>42</td><td></td></tr></tbody></table>" := rfl
example : render_table .noneV ["A"] = .ok "<table><thead><tr><th>A</th></tr></thead><tbody></tbody></table>" := rfl

/-!
## List items (source lines 126-128)

```python
style_shirt_html = "".join([f"<li>{item}</li>" for item in style_shirt])
```
-/

/-- The comprehension `"".join([f"<li>{item}</li>" for item in items])`:
one `<li>` per item, in order, text `str(item)` interpolated verbatim. -/
def liItems (items : List PyVal) : String :=
  pyJoin (items.map fun it => "<li>" ++ pyStr it ++ "</li>")

/-- Iterating the value the comprehension receives: a list yields its items; a
dict yields its keys (as strings); a string yields its characters (as
one-character strings); `None` is not iterable (`TypeError`). -/
def liItemsOf (v : PyVal) : Except PyErr String :=
  match v with
  | .list xs => .ok (liItems xs)
  | .dict es => .ok (liItems (es.map fun kv => .str kv.1))
  | .str s => .ok (liItems (s.data.map fun c => .str (String.singleton c)))
  | .noneV => .error .typeError

example : liItems [.str "Slim fit", .str "French cuff"] = "<li>Slim fit</li><li>French cuff</li>" := rfl
example : liItems [] = "" := rfl

/-!
## `main` (source lines 62-200)

The body of `main` after the input file has been parsed: field extraction
(lines 72-85), slug and output path (lines 88-90), fragment rendering
(lines 112-128) and template assembly (lines 130-195), as a pure function of
the parsed record and of the `datetime.utcnow()` timestamp string.
-/

/-- `x.get(k, default)`: only dicts have `.get`, every other receiver raises
`AttributeError` (used at source lines 80-85). -/
def dataGet (v : PyVal) (k : String) (dflt : PyVal) : Except PyErr PyVal :=
  match v with
  | .dict es => .ok ((es.lookup k).getD dflt)
  | _ => .error .attributeError

/-- The coercion `slugify(name)` forces at line 89: `name.strip()` requires a
string receiver, anything else raises `AttributeError`. -/
def asStr : PyVal → Except PyErr String
  | .str s => .ok s
  | _ => .error .attributeError

/-- `ci = safe_get(data, "Client Information", default={})` (line 72). -/
def mainClientInfo (root : PyVal) : PyVal :=
  safe_get root ["Client Information"] (.dict [])

/-- `name = safe_get(ci, "Name", default="Unknown Client")` (line 73). -/
def mainName (root : PyVal) : PyVal :=
  safe_get (mainClientInfo root) ["Name"] (.str "Unknown Client")

/-- `date_str = safe_get(ci, "Date", default="")` (line 74). -/
def mainDate (root : PyVal) : PyVal :=
  safe_get (mainClientInfo root) ["Date"] (.str "")

/-- `garment = safe_get(ci, "Garment", default="")` (line 75). -/
def mainGarment (root : PyVal) : PyVal :=
  safe_get (mainClientInfo root) ["Garment"] (.str "")

/-- `height = safe_get(ci, "Height", default="")` (line 76). -/
def mainHeight (root : PyVal) : PyVal :=
  safe_get (mainClientInfo root) ["Height"] (.str "")

/-- `weight = safe_get(ci, "Weight", default="")` (line 77). -/
def mainWeight (root : PyVal) : PyVal :=
  safe_get (mainClientInfo root) ["Weight"] (.str "")

/-- `notes = safe_get(ci, "Notes", default="")` (line 78). -/
def mainNotes (root : PyVal) : PyVal :=
  safe_get (mainClientInfo root) ["Notes"] (.str "")

/-- The `css` constant of `main` (source lines 92-110), verbatim. -/
def cssText : String :=
  "\n    :root\x7b --bg:#fafafa; --text:#111; --muted:#555; --border:#ddd \x7d\n    *\x7b box-sizing:border-box \x7d\n    body\x7b margin:0; padding:32px; font-family:-apple-system,BlinkMacSystemFont,Segoe UI,Roboto,Helvetica,Arial,sans-serif; background:var(--bg); color:var(--text) \x7d\n    .container\x7b max-width:750px; margin:0 auto; background:#fff; border:1px solid var(--border); border-radius:14px; box-shadow:0 6px 22px rgba(0,0,0,.06) \x7d\n    header\x7b padding:24px 24px 8px; border-bottom:1px solid var(--border) \x7d\n    h1\x7b margin:0 0 6px; font-size:28px \x7d\n    .meta\x7b color:var(--muted); font-size:14px \x7d\n    section\x7b padding:20px 24px \x7d\n    h2\x7b font-size:18px; margin:0 0 12px; color:#222 \x7d\n    h3\x7b font-size:16px; margin:10px 0 8px; color:#222 \x7d\n    table\x7b width:100%; border-collapse:collapse; margin:8px 0 16px \x7d\n    th, td\x7b border:1px solid var(--border); padding:10px 12px; text-align:left; vertical-align:top \x7d\n    th\x7b background:#f4f6f8; font-weight:600 \x7d\n    ul\x7b margin:8px 0 0 20px \x7d\n    li\x7b margin:6px 0 \x7d\n    .info-grid\x7b display:grid; grid-template-columns: 1fr 1fr; gap:10px \x7d\n    footer\x7b padding:16px 24px 24px; color:var(--muted); font-size:12px \x7d\n    "

/-- The `info_html` f-string of `main` (source lines 112-121), as a function
of the already-`str()`-rendered field values. -/
def infoGrid (name height weight notes : String) : String :=
  "\n      <div class=\"info-grid\">\n        <div><strong>Name:</strong> " ++ name ++
  "</div>\n        <div><strong>Height:</strong> " ++ height ++
  "</div>\n        <div><strong>Weight:</strong> " ++ weight ++
  "</div>\n        <div><strong>Notes:</strong> " ++ notes ++
  "</div>\n      </div>\n    "

/-- The values substituted into the template, one field per `Template`
placeholder that depends on the record (`css` is the constant `cssText` and
`generated_on` is the timestamp argument). -/
structure Fragments where
  name : String
  date_str : String
  garment : String
  info_html : String
  shirt_table : String
  trouser_table : String
  style_shirt_html : String
  style_trouser_html : String
  instructions_html : String

/-- Template text before `$name` (source line 131-136). -/
def tpl0 : String :=
  "<!doctype html>\n<html lang=\"en\">\n<head>\n  <meta charset=\"utf-8\">\n  <meta name=\"viewport\" content=\"width=device-width, initial-scale=1\">\n  <title>Client Sheet – "

/-- Template text between `$name` and `$css`. -/
def tpl1 : String := "</title>\n  <style>"

/-- Template text between `$css` and the second `$name`. -/
def tpl2 : String :=
  "</style>\n</head>\n<body>\n  <div class=\"container\">\n    <header>\n      <h1>Client Sheet – "

/-- Template text between the second `$name` and `$date_str`. -/
def tpl3 : String := "</h1>\n      <div class=\"meta\">Date: "

/-- Template text between `$date_str` and `$garment`. -/
def tpl4 : String := " · Garment: "

/-- Template text between `$garment` and `$info_html`. -/
def tpl5 : String :=
  "</div>\n    </header>\n\n    <section>\n      <h2>Section 1: Client Information</h2>\n      "

/-- Template text between `$info_html` and `$shirt_table`. -/
def tpl6 : String :=
  "\n    </section>\n\n    <section>\n      <h2>Section 2: Measurements</h2>\n\n      <h3>Shirt</h3>\n      "

/-- Template text between `$shirt_table` and `$trouser_table`. -/
def tpl7 : String := "\n\n      <h3>Trouser</h3>\n      "

/-- Template text between `$trouser_table` and `$style_shirt_html`. -/
def tpl8 : String :=
  "\n    </section>\n\n    <section>\n      <h2>Section 3: Style Choices</h2>\n      <h3>Shirt</h3>\n      <ul>"

/-- Template text between `$style_shirt_html` and `$style_trouser_html`. -/
def tpl9 : String := "</ul>\n      <h3>Trouser</h3>\n      <ul>"

/-- Template text between `$style_trouser_html` and `$instructions_html`. -/
def tpl10 : String :=
  "</ul>\n    </section>\n\n    <section>\n      <h2>Section 4: Tailor Instructions</h2>\n      <ul>"

/-- Template text between `$instructions_html` and `$generated_on`. -/
def tpl11 : String :=
  "</ul>\n    </section>\n\n    <footer>\n      Generated on "

/-- Template text after `$generated_on` (the closing tags). -/
def tpl12 : String := "\n    </footer>\n  </div>\n</body>\n</html>\n"

/-- `tpl.substitute(...)` (source lines 130-195): the fixed template with the
field values interpolated in template order.  `string.Template.substitute`
performs a single pass over the template, so the result is exactly this
concatenation. -/
def assembleDoc (f : Fragments) (generated_on : String) : String :=
  tpl0 ++ f.name ++ tpl1 ++ cssText ++ tpl2 ++ f.name ++ tpl3 ++ f.date_str ++
  tpl4 ++ f.garment ++ tpl5 ++ f.info_html ++ tpl6 ++ f.shirt_table ++
  tpl7 ++ f.trouser_table ++ tpl8 ++ f.style_shirt_html ++ tpl9 ++
  f.style_trouser_html ++ tpl10 ++ f.instructions_html ++ tpl11 ++
  generated_on ++ tpl12

/-- Everything `main` computes from the parsed record before the timestamp is
read: the output path `clients/<slug>.html` (lines 88-90) and the substituted
field values (lines 72-85 and 112-128), in source evaluation order, with the
exceptions each step can raise. -/
def buildFrags (root : PyVal) : Except PyErr (String × Fragments) := do
  let shirt_meas ← dataGet root "Measurements – Shirt" (.list [])
  let trouser_meas ← dataGet root "Measurements – Trouser" (.list [])
  let styles ← dataGet root "Style Choices" (.dict [])
  let style_shirt ← dataGet styles "Shirt" (.list [])
  let style_trouser ← dataGet styles "Trouser" (.list [])
  let instructions ← dataGet root "Tailor Instructions" (.list [])
  let name ← asStr (mainName root)
  let slug := slugify name
  let out_path := "clients/" ++ slug ++ ".html"
  let info_html := infoGrid name (pyStr (mainHeight root)) (pyStr (mainWeight root)) (pyStr (mainNotes root))
  let shirt_table ← render_table shirt_meas ["Area", "Measurement", "Notes"]
  let trouser_table ← render_table trouser_meas ["Area", "Measurement", "Notes"]
  let style_shirt_html ← liItemsOf style_shirt
  let style_trouser_html ← liItemsOf style_trouser
  let instructions_html ← liItemsOf instructions
  return (out_path, ⟨name, pyStr (mainDate root), pyStr (mainGarment root), info_html,
    shirt_table, trouser_table, style_shirt_html, style_trouser_html, instructions_html⟩)

/-- The record-to-document core of `main`: output path and assembled document,
given the parsed record and the formatted `datetime.utcnow()` string (the only
input of the assembly that is not a function of the record). -/
def pyMain (root : PyVal) (now : String) : Except PyErr (String × String) :=
  match buildFrags root with
  | .error e => .error e
  | .ok pf => .ok (pf.1, assembleDoc pf.2 now)

/-- How one process run ends: `sys.exit(code)` / normal return, or an uncaught
exception (CPython then exits with status 1 after printing a traceback to
standard error). -/
inductive ExitOutcome where
  | exitCode (n : Nat)
  | uncaught (e : PyErr)
deriving DecidableEq

/-- Observable outcome of a run: lines printed to standard output, how the
process ended, and the files written (path, content). -/
structure ScriptResult where
  stdout : List String
  exit : ExitOutcome
  writes : List (String × String)

/-- The usage text printed by `main` (source line 64). -/
def usageLine : String := "Usage: python scripts/generate_html.py <input_json_path>"

/-- `main()` (source lines 62-200) as a function of `sys.argv`, of the
filesystem (mapping an input path to its parsed JSON record, `Option.none`
when the file is unreadable or not valid JSON) and of the formatted
`datetime.utcnow()` string.  With fewer than two entries in `argv` it prints
the usage line and exits with status 1; otherwise it parses the input, renders
it, writes `clients/<slug>.html` and prints the created path. -/
def runMain (argv : List String) (fs : String → Option PyVal) (now : String) : ScriptResult :=
  match argv with
  | _script :: inputPath :: _ =>
    match fs inputPath with
    | Option.none => ⟨[], .uncaught .ioOrParseError, []⟩
    | Option.some root =>
      match pyMain root now with
      | .error e => ⟨[], .uncaught e, []⟩
      | .ok ph => ⟨["Created: " ++ ph.1], .exitCode 0, [(ph.1, ph.2)]⟩
  | _ => ⟨[usageLine], .exitCode 1, []⟩

/-- A module-level statement, abstracted to the global names its expressions
read (in evaluation order) and the global names it binds. -/
structure ScriptStmt where
  reads : List String
  binds : List String

/-- The module-level statements of `scripts/generate_html.py` in textual
order: the pasted `get_list` helper (line 3), the two stray assignments that
call `get_list(data, ...)` (lines 15-16) — note `data` is only ever a local of
`main`, never a module-level name — then the imports (lines 22-27) and the
function definitions (lines 30, 37, 47, 62). -/
def moduleStmts : List ScriptStmt :=
  [⟨[], ["get_list"]⟩,
   ⟨["get_list", "data"], ["shirt_meas"]⟩,
   ⟨["get_list", "data"], ["trouser_meas"]⟩,
   ⟨[], ["json"]⟩, ⟨[], ["sys"]⟩, ⟨[], ["os"]⟩, ⟨[], ["re"]⟩,
   ⟨[], ["datetime"]⟩, ⟨[], ["Template"]⟩,
   ⟨[], ["slugify"]⟩, ⟨[], ["safe_get"]⟩, ⟨[], ["render_table"]⟩, ⟨[], ["main"]⟩]

/-- Run the module-level statements: the first read of an unbound global name
aborts the interpreter with that name (a `NameError`); otherwise each
statement adds its bindings to the environment. -/
def runModuleStmts : List ScriptStmt → List String → Option String
  | [], _ => Option.none
  | s :: rest, env =>
    match s.reads.find? (fun r => !(env.contains r)) with
    | Option.some n => Option.some n
    | Option.none => runModuleStmts rest (env ++ s.binds)

/-- `python scripts/generate_html.py ...`: execute the module-level statements
from an empty global environment; if they all succeed, the
`if __name__ == "__main__":` guard (line 203) calls `main()`.  An unresolved
global name terminates the process with an uncaught `NameError` before
anything is printed to standard output or written. -/
def runScript (argv : List String) (fs : String → Option PyVal) (now : String) : ScriptResult :=
  match runModuleStmts moduleStmts [] with
  | Option.some n => ⟨[], .uncaught (.nameError n), []⟩
  | Option.none => runMain argv fs now

example : runModuleStmts moduleStmts [] = Option.some "data" := rfl

/-!
## Claims
-/

/-- C1: every execution of the script as a program fails before `main` runs:
the module-level statement at line 15 evaluates `get_list(data, ...)` while
the global name `data` is unbound, so for every command line, filesystem and
clock the process terminates with a `NameError` on `data`, prints nothing to
standard output and writes no output file. -/
theorem script_always_fails_name_error (argv : List String)
    (fs : String → Option PyVal) (now : String) :
    runScript argv fs now = ⟨[], .uncaught (.nameError "data"), []⟩ := rfl

/-- C3 (divergence witness): invoked without an input-path argument, the
program does not print the usage text — the module-level `NameError` kills it
first, with empty standard output — even though the `main` function itself,
were it ever reached, would print the usage line and exit with status 1
without writing a file. -/
theorem missing_arg_usage_unreachable :
    runScript ["scripts/generate_html.py"] (fun _ => Option.none) "2026-01-01 00:00 UTC"
      = ⟨[], .uncaught (.nameError "data"), []⟩
    ∧ runMain ["scripts/generate_html.py"] (fun _ => Option.none) "2026-01-01 00:00 UTC"
      = ⟨[usageLine], .exitCode 1, []⟩ :=
  ⟨rfl, rfl⟩

/-- C4: `safe_get` equals the plain dictionary walk with the default filled in
wherever the walk fails — i.e. it returns the supplied default as soon as a
key is missing at any level or the value at an expected mapping position is
not a mapping, and (being a total function of the embedding) it can never
raise, so field extraction never fails the render. -/
theorem safe_get_total_default (d : PyVal) (keys : List String) (dflt : PyVal) :
    safe_get d keys dflt = (pathVal d keys).getD dflt := by
  induction keys generalizing d with
  | nil => cases d <;> rfl
  | cons k ks ih =>
    cases d with
    | dict es =>
      cases h : es.lookup k with
      | some v => simp [safe_get, pathVal, h, ih]
      | none => simp [safe_get, pathVal, h]
    | str s => rfl
    | noneV => rfl
    | list xs => rfl

/-- C8: the list renderer emits exactly one `<li>` fragment per entry,
preserving input order (empty sequence yields the empty fragment), and each
item's text is interpolated verbatim — markup-significant characters such as
`<` and `&` are not escaped. -/
theorem list_items_order_verbatim (x : String) (xs : List PyVal) :
    liItems [] = ""
    ∧ liItems (PyVal.str x :: xs) = ("<li>" ++ x ++ "</li>") ++ liItems xs
    ∧ liItems [PyVal.str "<b>&"] = "<li><b>&</li>" :=
  ⟨rfl, rfl, rfl⟩

/-- Measurement rows of the spec's worked example, used to exhibit the
hyphen/en-dash divergence of C2. -/
def measRowsExample : PyVal :=
  .list [.dict [("Area", .str "Chest"), ("Measurement", .str "42"), ("Notes", .str "")],
         .dict [("Area", .str "Waist"), ("Measurement", .str "34"), ("Notes", .str "loose")]]

/-- The shirt-measurement table `main` actually renders for a record:
`data.get("Measurements – Shirt", [])` (line 80, en-dash key only) fed into
`render_table(..., ["Area", "Measurement", "Notes"])` (line 123). -/
def mainShirtTable (root : PyVal) : Except PyErr String :=
  match dataGet root "Measurements – Shirt" (.list []) with
  | .error e => .error e
  | .ok m => render_table m ["Area", "Measurement", "Notes"]

/-- C2 is false of the code: a record storing the same rows under the
hyphen-spelled key renders a different (header-only) shirt table than one
using the en-dash key, because `main` looks up only the en-dash spelling —
even though the (never-applied) `get_list` helper pasted at the top of the
file would treat the two spellings alike, en-dash first. -/
theorem measurement_hyphen_key_ignored :
    mainShirtTable (.dict [("Measurements - Shirt", measRowsExample)])
      ≠ mainShirtTable (.dict [("Measurements – Shirt", measRowsExample)])
    ∧ get_list [("Measurements - Shirt", measRowsExample)]
        ["Measurements – Shirt", "Measurements - Shirt"]
      = get_list [("Measurements – Shirt", measRowsExample)]
        ["Measurements – Shirt", "Measurements - Shirt"] := by
  refine ⟨fun h => ?_, rfl⟩
  have h2 : (mainShirtTable (.dict [("Measurements - Shirt", measRowsExample)])).toOption.getD ""
      = (mainShirtTable (.dict [("Measurements – Shirt", measRowsExample)])).toOption.getD "" := by
    rw [h]
  exact absurd h2 (by decide)

/-- The body fragments of a list of well-formed rows come out one per row, in
order. -/
theorem rowsHtml_map_dict (headers : List String) (rows : List (List (String × PyVal))) :
    rowsHtml headers (rows.map PyVal.dict) = .ok (pyJoin (rows.map (trCell headers))) := by
  induction rows with
  | nil => rfl
  | cons r rs ih => simp [rowsHtml, ih, pyJoin]

/-- C7: on a sequence of row mappings, `render_table` produces exactly the
table with one header cell per column name in order and one body row per input
row in input order, each cell the row's value for that column (`str()`-rendered)
or the empty string when the key is absent; an absent (`None`) or empty row
sequence yields the header-only table with no body rows. -/
theorem render_table_order_and_empty (rows : List (List (String × PyVal))) (headers : List String) :
    render_table (.list (rows.map PyVal.dict)) headers = .ok (tableHtml rows headers)
    ∧ render_table .noneV headers = .ok (tableHtml [] headers)
    ∧ render_table (.list []) headers = .ok (tableHtml [] headers) := by
  refine ⟨?_, rfl, rfl⟩
  cases rows with
  | nil => rfl
  | cons r rs =>
    have h := rowsHtml_map_dict headers (r :: rs)
    simp only [List.map_cons] at h
    simp [render_table, isTruthy, tableHtml, h]

/-- `dropWhile` is the identity when no element satisfies the predicate. -/
theorem dropWhile_no (p : Char → Bool) (l : List Char) (h : ∀ c ∈ l, p c = false) :
    l.dropWhile p = l := by
  cases l with
  | nil => rfl
  | cons a t => simp [List.dropWhile_cons, h a (List.mem_cons_self a t)]

/-- `map` is the identity when the function fixes every element. -/
theorem charsMapId {l : List Char} {f : Char → Char} (h : ∀ c ∈ l, f c = c) :
    l.map f = l := by
  induction l with
  | nil => rfl
  | cons a t ih =>
    simp [h a (List.mem_cons_self a t), ih fun c hc => h c (List.mem_cons_of_mem a hc)]

/-- Two characters with the same code point are equal. -/
theorem char_eq_of_toNat {c d : Char} (h : c.toNat = d.toNat) : c = d :=
  Char.ext_iff.mpr (UInt32.ext h)

/-- Every character of the processed `slugify` string is a lowercase ASCII
letter, an ASCII digit, or a hyphen (code points 97-122, 48-57, 45). -/
theorem mem_slugCore (name : String) (c : Char) (hc : c ∈ slugCore name) :
    (97 ≤ c.toNat ∧ c.toNat ≤ 122) ∨ (48 ≤ c.toNat ∧ c.toNat ≤ 57) ∨ c.toNat = 45 := by
  unfold slugCore at hc
  rcases List.mem_map.mp hc with ⟨c', hc', rfl⟩
  have hk := (List.mem_filter.mp hc').2
  by_cases hsp : c' = ' '
  · rw [if_pos hsp]
    right; right; decide
  · rw [if_neg hsp]
    simp [slugKeep] at hk
    rcases hk with ((h | h) | h) | h
    · exact Or.inl h
    · exact Or.inr (Or.inl h)
    · exact Or.inr (Or.inr h)
    · exact absurd (@char_eq_of_toNat c' ' ' h) hsp

/-- A character list already inside the slug output alphabet is a fixed point
of the whole `slugify` character pipeline. -/
theorem slugCore_fixed (l : List Char)
    (h : ∀ c ∈ l, (97 ≤ c.toNat ∧ c.toNat ≤ 122) ∨ (48 ≤ c.toNat ∧ c.toNat ≤ 57) ∨ c.toNat = 45) :
    slugCore (String.mk l) = l := by
  have h32 : (' ' : Char).toNat = 32 := rfl
  have e1 : l.dropWhile pySpace = l :=
    dropWhile_no pySpace l fun c hc => by have := h c hc; simp [pySpace]; omega
  have e2 : l.reverse.dropWhile pySpace = l.reverse :=
    dropWhile_no pySpace l.reverse fun c hc => by
      have := h c (List.mem_reverse.mp hc); simp [pySpace]; omega
  have e3 : l.map pyLowerChar = l := charsMapId fun c hc => by
    have := h c hc
    show pyLowerChar c = c
    unfold pyLowerChar
    rw [if_neg (by omega)]
  have e4 : l.filter slugKeep = l :=
    List.filter_eq_self.mpr fun c hc => by have := h c hc; simp [slugKeep]; omega
  have e5 : l.map (fun c => if c = ' ' then '-' else c) = l := charsMapId fun c hc => by
    have hcp := h c hc
    have hne : c ≠ ' ' := fun he => by rw [he, h32] at hcp; omega
    simp [hne]
  have hdata : (String.mk l).data = l := rfl
  unfold slugCore pyStripChars
  rw [hdata, e1, e2, List.reverse_reverse, e3, e4, e5]

/-- C6: `slugify` lowercases and trims the name, removes every character
outside `[a-z0-9\- ]` and turns each space into a hyphen — so its result
contains only lowercase ASCII letters, digits and hyphens — and when the
processed string is empty it returns the fixed fallback token `"client"`. -/
theorem slugify_charset_and_fallback (name : String) :
    (∀ c ∈ (slugify name).data,
        (97 ≤ c.toNat ∧ c.toNat ≤ 122) ∨ (48 ≤ c.toNat ∧ c.toNat ≤ 57) ∨ c.toNat = 45)
    ∧ (slugCore name = [] → slugify name = "client")
    ∧ (slugCore name ≠ [] → slugify name = String.mk (slugCore name)) := by
  refine ⟨?_, fun h => by simp [slugify, h], fun h => by simp [slugify, h]⟩
  intro c hc
  by_cases h : slugCore name = []
  · rw [show slugify name = "client" from by simp [slugify, h]] at hc
    have hall : ∀ c ∈ "client".data,
        (97 ≤ c.toNat ∧ c.toNat ≤ 122) ∨ (48 ≤ c.toNat ∧ c.toNat ≤ 57) ∨ c.toNat = 45 := by
      decide
    exact hall c hc
  · rw [show slugify name = String.mk (slugCore name) from by simp [slugify, h]] at hc
    exact mem_slugCore name c hc

/-- C6 witness: the slug alphabet fact at `'j' ∈ slugify "Jane B"`, the
fallback at the all-punctuation name `"!!!"`, and the non-empty case at
`"Jane B"`. -/
theorem slugify_charset_and_fallback_witness :
    ((97 ≤ 'j'.toNat ∧ 'j'.toNat ≤ 122) ∨ (48 ≤ 'j'.toNat ∧ 'j'.toNat ≤ 57) ∨ 'j'.toNat = 45)
    ∧ slugify "!!!" = "client"
    ∧ slugify "Jane B" = String.mk (slugCore "Jane B") :=
  ⟨(slugify_charset_and_fallback "Jane B").1 'j' (by decide),
   (slugify_charset_and_fallback "!!!").2.1 (by decide),
   (slugify_charset_and_fallback "Jane B").2.2 (by decide)⟩

/-- C10: `slugify` is idempotent — applying it to its own output changes
nothing, including on the `"client"` fallback. -/
theorem slugify_idempotent (s : String) : slugify (slugify s) = slugify s := by
  by_cases h : slugCore s = []
  · rw [show slugify s = "client" from by simp [slugify, h]]
    decide
  · rw [show slugify s = String.mk (slugCore s) from by simp [slugify, h]]
    have hfix := slugCore_fixed (slugCore s) fun c hc => mem_slugCore s c hc
    simp [slugify, hfix, h]

/-- C5: when the `Client Information` section of a record lacks a field, the
extracted `Date`, `Garment`, `Height`, `Weight` and `Notes` default to the
empty string and a missing `Name` defaults to `"Unknown Client"`; the
assembled document then contains the name default verbatim (at the title
position) instead of the render failing. -/
theorem client_info_defaults (root : PyVal) (ci : List (String × PyVal))
    (hci : mainClientInfo root = PyVal.dict ci) :
    (ci.lookup "Name" = Option.none → mainName root = .str "Unknown Client")
    ∧ (ci.lookup "Date" = Option.none → mainDate root = .str "")
    ∧ (ci.lookup "Garment" = Option.none → mainGarment root = .str "")
    ∧ (ci.lookup "Height" = Option.none → mainHeight root = .str "")
    ∧ (ci.lookup "Weight" = Option.none → mainWeight root = .str "")
    ∧ (ci.lookup "Notes" = Option.none → mainNotes root = .str "")
    ∧ (∀ (f : Fragments) (now : String), f.name = "Unknown Client" →
        ∃ u v, assembleDoc f now = u ++ ("Unknown Client" ++ v)) := by
  refine ⟨fun h => by simp [mainName, hci, safe_get, h],
    fun h => by simp [mainDate, hci, safe_get, h],
    fun h => by simp [mainGarment, hci, safe_get, h],
    fun h => by simp [mainHeight, hci, safe_get, h],
    fun h => by simp [mainWeight, hci, safe_get, h],
    fun h => by simp [mainNotes, hci, safe_get, h],
    fun f now hname => ?_⟩
  refine ⟨tpl0, tpl1 ++ cssText ++ tpl2 ++ "Unknown Client" ++ tpl3 ++ f.date_str ++
    tpl4 ++ f.garment ++ tpl5 ++ f.info_html ++ tpl6 ++ f.shirt_table ++
    tpl7 ++ f.trouser_table ++ tpl8 ++ f.style_shirt_html ++ tpl9 ++
    f.style_trouser_html ++ tpl10 ++ f.instructions_html ++ tpl11 ++
    now ++ tpl12, ?_⟩
  simp only [assembleDoc, hname, String.append_assoc]

/-- C5 witness: with an empty record the client-information section is absent,
every client field comes back as its default, and the document assembled from
fragments whose name is the placeholder contains `"Unknown Client"`. -/
theorem client_info_defaults_witness :
    mainName (PyVal.dict []) = PyVal.str "Unknown Client"
    ∧ mainDate (PyVal.dict []) = PyVal.str ""
    ∧ mainGarment (PyVal.dict []) = PyVal.str ""
    ∧ mainHeight (PyVal.dict []) = PyVal.str ""
    ∧ mainWeight (PyVal.dict []) = PyVal.str ""
    ∧ mainNotes (PyVal.dict []) = PyVal.str ""
    ∧ (∃ u v, assembleDoc ⟨"Unknown Client", "", "", "", "", "", "", "", ""⟩ "T"
        = u ++ ("Unknown Client" ++ v)) :=
  have h := client_info_defaults (PyVal.dict []) [] rfl
  ⟨h.1 rfl, h.2.1 rfl, h.2.2.1 rfl, h.2.2.2.1 rfl, h.2.2.2.2.1 rfl,
   h.2.2.2.2.2.1 rfl, h.2.2.2.2.2.2 ⟨"Unknown Client", "", "", "", "", "", "", "", ""⟩ "T" rfl⟩

/-- C9: for a fixed input record the rendered output is a deterministic
function of the record and the timestamp: any two successful runs of the
record-to-document pipeline write the same output path and byte-identical
documents except for the substituted generation-timestamp field (one shared
prefix and suffix surround the timestamp in both documents). -/
theorem output_deterministic_modulo_timestamp (root : PyVal)
    (t₁ t₂ p₁ p₂ h₁ h₂ : String)
    (e₁ : pyMain root t₁ = .ok (p₁, h₁)) (e₂ : pyMain root t₂ = .ok (p₂, h₂)) :
    p₁ = p₂ ∧ ∃ pre post, h₁ = pre ++ (t₁ ++ post) ∧ h₂ = pre ++ (t₂ ++ post) := by
  unfold pyMain at e₁ e₂
  cases hbf : buildFrags root with
  | error e =>
    rw [hbf] at e₁
    exact absurd e₁ (by simp)
  | ok pf =>
    rw [hbf] at e₁ e₂
    simp only [Except.ok.injEq, Prod.mk.injEq] at e₁ e₂
    obtain ⟨hp₁, hh₁⟩ := e₁
    obtain ⟨hp₂, hh₂⟩ := e₂
    refine ⟨hp₁ ▸ hp₂ ▸ rfl, tpl0 ++ pf.2.name ++ tpl1 ++ cssText ++ tpl2 ++ pf.2.name ++
      tpl3 ++ pf.2.date_str ++ tpl4 ++ pf.2.garment ++ tpl5 ++ pf.2.info_html ++
      tpl6 ++ pf.2.shirt_table ++ tpl7 ++ pf.2.trouser_table ++ tpl8 ++
      pf.2.style_shirt_html ++ tpl9 ++ pf.2.style_trouser_html ++ tpl10 ++
      pf.2.instructions_html ++ tpl11, tpl12, ?_, ?_⟩
    · rw [← hh₁]
      simp [assembleDoc, String.append_assoc]
    · rw [← hh₂]
      simp [assembleDoc, String.append_assoc]

/-- C9 witness: rendering the empty record at two different timestamps
succeeds, writes the same path, and yields documents sharing one prefix and
suffix around the timestamp. -/
theorem output_deterministic_modulo_timestamp_witness :
    ∃ pre post,
      pyMain (PyVal.dict []) "A" = .ok ("clients/unknown-client.html", pre ++ ("A" ++ post))
      ∧ pyMain (PyVal.dict []) "B" = .ok ("clients/unknown-client.html", pre ++ ("B" ++ post)) := by
  have eA : ∃ h, pyMain (PyVal.dict []) "A" = .ok ("clients/unknown-client.html", h) := ⟨_, rfl⟩
  have eB : ∃ h, pyMain (PyVal.dict []) "B" = .ok ("clients/unknown-client.html", h) := ⟨_, rfl⟩
  obtain ⟨hA, eA⟩ := eA
  obtain ⟨hB, eB⟩ := eB
  obtain ⟨-, pre, post, r₁, r₂⟩ :=
    output_deterministic_modulo_timestamp (PyVal.dict []) "A" "B"
      "clients/unknown-client.html" "clients/unknown-client.html" hA hB eA eB
  exact ⟨pre, post, by rw [eA, r₁], by rw [eB, r₂]⟩
